import Mathlib

/-!
Verification of the ESP protocol engine of RPi-V1-Dashcam
(`controllers/v1_controller.py`, `shared_state.py`).

Bytes are modelled as natural numbers below 256, byte strings as `List Nat`.
Python code that can raise inside a caught region is modelled with `Option`;
a dynamic method call whose argument binding can fail is modelled with
`PyResult`.
-/

/-- ESP start-of-frame byte (`ESP_SOF = 0xAA`). -/
def ESP_SOF : Nat := 0xAA

/-- ESP end-of-frame byte (`ESP_EOF = 0xAB`). -/
def ESP_EOF : Nat := 0xAB

/-- Destination address base (`DEST_BASE = 0xD0`). -/
def DEST_BASE : Nat := 0xD0

/-- Origin address base (`ORIG_BASE = 0xE0`). -/
def ORIG_BASE : Nat := 0xE0

/-- ESP device identifiers (`class DeviceId(IntEnum)`). -/
inductive DeviceId where
  | concealedDisplay
  | remoteAudio
  | savvy
  | v1connection
  | generalBroadcast
  | valentineOneNoChecksum
  | valentineOne
  | valentineOneLegacy
  | unknownDevice
deriving DecidableEq, Repr

/-- The integer value of each `DeviceId` member. -/
def DeviceId.val : DeviceId → Nat
  | .concealedDisplay => 0x00
  | .remoteAudio => 0x01
  | .savvy => 0x02
  | .v1connection => 0x06
  | .generalBroadcast => 0x08
  | .valentineOneNoChecksum => 0x09
  | .valentineOne => 0x0A
  | .valentineOneLegacy => 0x98
  | .unknownDevice => 0x99

/-- `DeviceId(n)`: `some` member with value `n`, `none` models the
`ValueError` Python raises for a value that is no member. -/
def DeviceId.ofNat? (n : Nat) : Option DeviceId :=
  if n = 0x00 then some .concealedDisplay
  else if n = 0x01 then some .remoteAudio
  else if n = 0x02 then some .savvy
  else if n = 0x06 then some .v1connection
  else if n = 0x08 then some .generalBroadcast
  else if n = 0x09 then some .valentineOneNoChecksum
  else if n = 0x0A then some .valentineOne
  else if n = 0x98 then some .valentineOneLegacy
  else if n = 0x99 then some .unknownDevice
  else none

/-- ESP packet identifiers (`class PacketId(IntEnum)`). -/
inductive PacketId where
  | reqVersion
  | reqAllSweepDefinitions
  | reqMaxSweepIndex
  | reqStartAlertData
  | reqStopAlertData
  | respVersion
  | respSweepDefinition
  | respMaxSweepIndex
  | respAlertData
  | infDisplayData
  | respUnsupportedPacket
  | respRequestNotProcessed
  | infV1Busy
  | respDataError
  | unknownPacketType
deriving DecidableEq, Repr

/-- The integer value of each `PacketId` member. -/
def PacketId.val : PacketId → Nat
  | .reqVersion => 0x01
  | .reqAllSweepDefinitions => 0x16
  | .reqMaxSweepIndex => 0x19
  | .reqStartAlertData => 0x41
  | .reqStopAlertData => 0x42
  | .respVersion => 0x02
  | .respSweepDefinition => 0x17
  | .respMaxSweepIndex => 0x20
  | .respAlertData => 0x43
  | .infDisplayData => 0x31
  | .respUnsupportedPacket => 0x64
  | .respRequestNotProcessed => 0x65
  | .infV1Busy => 0x66
  | .respDataError => 0x67
  | .unknownPacketType => 0x100

/-- `PacketId(n)`: `some` member with value `n`, `none` models the
`ValueError` Python raises for a value that is no member. -/
def PacketId.ofNat? (n : Nat) : Option PacketId :=
  if n = 0x01 then some .reqVersion
  else if n = 0x16 then some .reqAllSweepDefinitions
  else if n = 0x19 then some .reqMaxSweepIndex
  else if n = 0x41 then some .reqStartAlertData
  else if n = 0x42 then some .reqStopAlertData
  else if n = 0x02 then some .respVersion
  else if n = 0x17 then some .respSweepDefinition
  else if n = 0x20 then some .respMaxSweepIndex
  else if n = 0x43 then some .respAlertData
  else if n = 0x31 then some .infDisplayData
  else if n = 0x64 then some .respUnsupportedPacket
  else if n = 0x65 then some .respRequestNotProcessed
  else if n = 0x66 then some .infV1Busy
  else if n = 0x67 then some .respDataError
  else if n = 0x100 then some .unknownPacketType
  else none

/-- A parsed ESP packet (`class ESPPacket`, `controllers/v1_controller.py`).
`payloadLenUsed` records the local `payload_len` after the conditional
checksum adjustment, i.e. the length used to slice the payload. -/
structure ESPPacket where
  rawData : List Nat
  v1Type : DeviceId
  destination : DeviceId
  origin : DeviceId
  packetId : PacketId
  payloadLenUsed : Nat
  payload : List Nat
deriving DecidableEq, Repr

/-- `ESPPacket.__init__(raw_data, v1_type)` of `controllers/v1_controller.py`:
parses header fields and slices the payload, subtracting one from a positive
declared payload length exactly when `v1_type == DeviceId.VALENTINE_ONE`.
`none` models an uncaught `IndexError`/`ValueError` in the constructor. -/
def espPacketInit (raw : List Nat) (v1Type : DeviceId) : Option ESPPacket := do
  let b1 ← raw.get? 1
  let b2 ← raw.get? 2
  let b3 ← raw.get? 3
  let b4 ← raw.get? 4
  let destination ← DeviceId.ofNat? (b1 % 16)
  let origin ← DeviceId.ofNat? (b2 % 16)
  let packetId ← PacketId.ofNat? b3
  let payloadLen := if v1Type = DeviceId.valentineOne ∧ 0 < b4 then b4 - 1 else b4
  some { rawData := raw, v1Type := v1Type, destination := destination,
         origin := origin, packetId := packetId, payloadLenUsed := payloadLen,
         payload := (raw.drop 5).take payloadLen }

/-- The specialised view `packet_factory` chooses for a packet
(`PACKET_TYPE_MAP`, with `base` for every other known id). -/
inductive PacketView where
  | infDisplayData
  | responseAlertData
  | responseVersion
  | responseMaxSweepIndex
  | responseSweepDefinition
  | base
deriving DecidableEq, Repr

/-- `packet_factory(raw_data, v1_type)`: dispatches on the packet-id byte.
An id that is not a `PacketId` member takes the `return ESPPacket(...)`
branch, whose constructor raises `ValueError` on `PacketId(raw_data[3])`;
the surrounding `except (IndexError, ValueError)` turns every such raise
into `None`, modelled as `none`. -/
def packet_factory (raw : List Nat) (v1Type : DeviceId) :
    Option (PacketView × ESPPacket) :=
  match raw.get? 3 with
  | none => none
  | some pidVal =>
    match PacketId.ofNat? pidVal with
    | none => (espPacketInit raw v1Type).map (fun p => (PacketView.base, p))
    | some pid =>
      let view : PacketView :=
        if pid = .infDisplayData then .infDisplayData
        else if pid = .respAlertData then .responseAlertData
        else if pid = .respVersion then .responseVersion
        else if pid = .respMaxSweepIndex then .responseMaxSweepIndex
        else if pid = .respSweepDefinition then .responseSweepDefinition
        else .base
      (espPacketInit raw v1Type).map (fun p => (view, p))

/-- One row of the detector's alert table (`class AlertData`). -/
structure AlertData where
  index : Nat
  count : Nat
  frequency : Nat
  frontStrength : Nat
  rearStrength : Nat
  isPriority : Bool
deriving DecidableEq, Repr

/-- `AlertData.__init__(payload)`: `none` models an uncaught
`IndexError`/`struct.error` on a payload that is too short. -/
def AlertData.ofPayload? (payload : List Nat) : Option AlertData := do
  let b0 ← payload.get? 0
  let b1 ← payload.get? 1
  let b2 ← payload.get? 2
  let b3 ← payload.get? 3
  let b4 ← payload.get? 4
  let b6 ← payload.get? 6
  some { index := (b0 / 16) % 16, count := b0 % 16,
         frequency := b1 * 256 + b2, frontStrength := b3,
         rearStrength := b4, isPriority := b6.testBit 7 }

/-- Insertion into the alert buffer, modelling Python dict assignment
`buffer[k] = v`: an existing key keeps its position, a new key is appended. -/
def insertDict (buf : List (Nat × AlertData)) (k : Nat) (v : AlertData) :
    List (Nat × AlertData) :=
  if buf.any (fun p => p.1 == k) then
    buf.map (fun p => if p.1 = k then (k, v) else p)
  else buf ++ [(k, v)]

/-- Dict lookup `buffer[k]` on the insertion-ordered buffer. -/
def lookupDict (buf : List (Nat × AlertData)) (k : Nat) : Option AlertData :=
  (buf.find? (fun p => p.1 == k)).map Prod.snd

/-- The stale-generation check of `_process_alert_data`: a non-empty buffer
whose first inserted row declares a different count than the incoming row is
discarded before the insertion. -/
def bufAfterCountCheck (buf : List (Nat × AlertData)) (a : AlertData) :
    List (Nat × AlertData) :=
  match buf with
  | [] => buf
  | (_, first) :: _ => if first.count ≠ a.count then [] else buf

/-- `V1BleakClient._process_alert_data(alert)`: the alert-reassembly step.
Returns the new buffer and the table published to the alert callback on this
step, if any (`some []` is the published empty table of the count-0 branch). -/
def processAlert (buf : List (Nat × AlertData)) (a : AlertData) :
    List (Nat × AlertData) × Option (List AlertData) :=
  if a.count = 0 then ([], some [])
  else
    let buf2 := insertDict (bufAfterCountCheck buf a) a.index a
    if buf2.length = a.count then
      let sortedKeys := List.insertionSort (· ≤ ·) (buf2.map Prod.fst)
      ([], some (sortedKeys.filterMap (lookupDict buf2)))
    else (buf2, none)

/-- Feeding a sequence of alert rows through `_process_alert_data`,
collecting every published table in order. -/
def runAlerts (buf : List (Nat × AlertData)) :
    List AlertData → List (Nat × AlertData) × List (List AlertData)
  | [] => (buf, [])
  | a :: rest =>
    let step := processAlert buf a
    let next := runAlerts step.1 rest
    (next.1, step.2.toList ++ next.2)

/-- The mutable state of `V1BleakClient` that the notification path touches:
the tracked detector type, the flow-gate event `can_send_event`, the alert
reassembly buffer, the keys of `pending_responses`, and whether a BLE client
is held. -/
structure ClientState where
  v1Type : DeviceId
  canSend : Bool
  alertBuffer : List (Nat × AlertData)
  pending : List PacketId
  connected : Bool
deriving DecidableEq, Repr

/-- `V1BleakClient.__init__`: no client, type `UNKNOWN_DEVICE`, flow gate
open (`can_send_event.set()`), empty buffers. -/
def initClientState : ClientState :=
  { v1Type := .unknownDevice, canSend := true, alertBuffer := [],
    pending := [], connected := false }

/-- What the notification handler routes a packet to. -/
inductive HandlerEvent where
  | displayData (p : ESPPacket)
  | alertTable (t : List AlertData)
  | response (pid : PacketId)
deriving DecidableEq, Repr

/-- How one call of `_notification_handler` ends. -/
inductive HandlerOutcome where
  | droppedFraming
  | raised
  | droppedOrigin
  | droppedChecksum
  | droppedMalformed
  | processed (view : PacketView) (p : ESPPacket)
deriving DecidableEq, Repr

/-- The result of one `_notification_handler` call: the client state after
the call, the events routed to components, and how the call ended. -/
structure HandlerResult where
  state : ClientState
  events : List HandlerEvent
  outcome : HandlerOutcome
deriving DecidableEq, Repr

/-- `data.startswith(b'\xaa') and data.endswith(b'\xab')`. -/
def wellFramed (data : List Nat) : Bool :=
  data.get? 0 == some ESP_SOF && data.get? (data.length - 1) == some ESP_EOF

/-- `data[-2]`, the stored checksum byte of a frame of length at least 2. -/
def storedChecksum (data : List Nat) : Nat :=
  data.getD (data.length - 2) 0

/-- `sum(data[:-2]) & 0xFF`, the checksum the handler computes. -/
def computedChecksum (data : List Nat) : Nat :=
  (data.take (data.length - 2)).sum % 256

/-- The dispatch tail of `_notification_handler` once `packet_factory`
produced a packet: flow-gate update and display callback for
`InfDisplayData`, alert reassembly for `ResponseAlertData`, then delivery
to a pending response queue keyed by the packet id. -/
def dispatchPacket (st : ClientState) (view : PacketView) (pkt : ESPPacket) :
    HandlerResult :=
  let pendingEvents :=
    if pkt.packetId ∈ st.pending then [HandlerEvent.response pkt.packetId] else []
  match view with
  | .infDisplayData =>
    match pkt.payload.get? 5 with
    | none => ⟨st, [], .raised⟩
    | some aux0 =>
      let holdoff := aux0.testBit 1
      ⟨{ st with canSend := ¬ holdoff },
       HandlerEvent.displayData pkt :: pendingEvents, .processed view pkt⟩
  | .responseAlertData =>
    match AlertData.ofPayload? pkt.payload with
    | none => ⟨st, [], .raised⟩
    | some a =>
      let step := processAlert st.alertBuffer a
      ⟨{ st with alertBuffer := step.1 },
       (match step.2 with
        | some t => [HandlerEvent.alertTable t]
        | none => []) ++ pendingEvents,
       .processed view pkt⟩
  | _ => ⟨st, pendingEvents, .processed view pkt⟩

/-- `V1BleakClient._notification_handler(sender, data)`: framing check,
origin filter, sticky detector-type update, conditional checksum
validation, classification, and dispatch. -/
def notificationHandler (st : ClientState) (data : List Nat) : HandlerResult :=
  if ¬ wellFramed data then ⟨st, [], .droppedFraming⟩
  else
    match data.get? 2 with
    | none => ⟨st, [], .raised⟩
    | some b2 =>
      match DeviceId.ofNat? (b2 % 16) with
      | none => ⟨st, [], .raised⟩
      | some originId =>
        if originId = DeviceId.v1connection then ⟨st, [], .droppedOrigin⟩
        else
          let st1 :=
            if originId = DeviceId.valentineOne ∨
               originId = DeviceId.valentineOneNoChecksum
            then { st with v1Type := originId } else st
          if st1.v1Type = DeviceId.valentineOne ∧
             storedChecksum data ≠ computedChecksum data then
            ⟨st1, [], .droppedChecksum⟩
          else
            match packet_factory data st1.v1Type with
            | none => ⟨st1, [], .droppedMalformed⟩
            | some vp => dispatchPacket st1 vp.1 vp.2

/-- The detector type the handler tracks after seeing a frame: the frame's
origin when that origin is a detector variant, otherwise the previous value.
Specification-side characterisation used by the amended claim C4. -/
def newV1Type (st : ClientState) (data : List Nat) : DeviceId :=
  match DeviceId.ofNat? (data.getD 2 0 % 16) with
  | some d =>
    if d = DeviceId.valentineOne ∨ d = DeviceId.valentineOneNoChecksum
    then d else st.v1Type
  | none => st.v1Type

/-- `V1BleakClient.disconnect()`: closes and forgets the BLE client; nothing
else of the client state is touched. -/
def v1Disconnect (st : ClientState) : ClientState :=
  { st with connected := false }

/-- The frame `V1BleakClient._send_request` writes:
`[SOF, DEST_BASE|dest, ORIG_BASE|V1CONNECTION, pid, payload_len(+1 when
checksummed), payload..., [checksum], EOF]`. `none` models the `ValueError`
`bytearray` raises when a value does not fit in a byte. -/
def sendRequestFrame? (pid : PacketId) (dest : DeviceId) (payload : List Nat)
    (useChecksum : Bool) : Option (List Nat) :=
  let payloadLen := if useChecksum then payload.length + 1 else payload.length
  if pid.val ≤ 255 ∧ payloadLen ≤ 255 ∧ payload.all (· ≤ 255) then
    let header := [ESP_SOF, Nat.lor DEST_BASE dest.val,
                   Nat.lor ORIG_BASE (DeviceId.val .v1connection),
                   pid.val, payloadLen]
    let body := header ++ payload
    let body2 := if useChecksum then body ++ [body.sum % 256] else body
    some (body2 ++ [ESP_EOF])
  else none

/-- The shared V1 state (`class V1Data`, `shared_state.py`); the GHz
frequency is modelled as an exact rational. -/
structure V1Data where
  isConnected : Bool
  connectionStatus : String
  inAlert : Bool
  priorityAlertFreq : ℚ
  priorityAlertBand : String
  priorityAlertDirection : String
  priorityAlertStrength : Nat
  priorityAlertFrontStrength : Nat
  priorityAlertRearStrength : Nat
  v1Mode : String
deriving DecidableEq, Repr

/-- The `V1Data` dataclass defaults. -/
def initV1Data : V1Data :=
  { isConnected := false, connectionStatus := "Disconnected",
    inAlert := false, priorityAlertFreq := 0, priorityAlertBand := "N/A",
    priorityAlertDirection := "N/A", priorityAlertStrength := 0,
    priorityAlertFrontStrength := 0, priorityAlertRearStrength := 0,
    v1Mode := "Standby" }

/-- `AppState.set_v1_connection_status(is_connected, status)`: the method
body, resetting every detector-derived field when `is_connected` is false. -/
def set_v1_connection_status (v : V1Data) (isConnected : Bool)
    (status : String) : V1Data :=
  let v := { v with isConnected := isConnected, connectionStatus := status }
  if isConnected then v
  else
    { v with
      inAlert := false
      v1Mode := "Standby"
      priorityAlertBand := "N/A"
      priorityAlertFreq := 0
      priorityAlertDirection := "N/A"
      priorityAlertStrength := 0
      priorityAlertFrontStrength := 0
      priorityAlertRearStrength := 0 }

/-- `AppState.update_v1_alert_data(in_alert, band, freq, front_str,
rear_str)`: the method body. -/
def update_v1_alert_data (v : V1Data) (inAlert : Bool) (band : String)
    (freq : ℚ) (frontStr rearStr : Nat) : V1Data :=
  let v := { v with
             inAlert := inAlert
             priorityAlertBand := band
             priorityAlertFreq := freq
             priorityAlertFrontStrength := frontStr
             priorityAlertRearStrength := rearStr }
  if inAlert then v
  else { v with priorityAlertDirection := "N/A", priorityAlertStrength := 0 }

/-- The result of a dynamic Python method call: either the bound call's
value, or the `TypeError` CPython raises when the arguments do not bind to
the method's signature. -/
inductive PyResult (α : Type) where
  | ok (a : α)
  | typeError
deriving DecidableEq, Repr

/-- An argument value at a modelled dynamic call site. -/
inductive PyArg where
  | pyBool (b : Bool)
  | pyStr (s : String)
  | pyRat (q : ℚ)
  | pyNat (n : Nat)
deriving DecidableEq, Repr

/-- A call of `state.set_v1_connection_status(*args)`: the signature
requires exactly the two positional arguments `(is_connected, status)`;
any other argument list raises `TypeError`. -/
def callSetV1ConnectionStatus (v : V1Data) (args : List PyArg) :
    PyResult V1Data :=
  match args with
  | [PyArg.pyBool b, PyArg.pyStr s] => .ok (set_v1_connection_status v b s)
  | _ => .typeError

/-- The keyword parameters of `AppState.update_v1_alert_data`. -/
inductive AlertKw where
  | in_alert
  | band
  | freq
  | front_str
  | rear_str
deriving DecidableEq, Repr

/-- A call of `state.update_v1_alert_data(**kwargs)`: the signature requires
all five keyword arguments; a call missing one raises `TypeError`. -/
def callUpdateV1AlertData (v : V1Data) (kwargs : List (AlertKw × PyArg)) :
    PyResult V1Data :=
  match kwargs.lookup AlertKw.in_alert, kwargs.lookup AlertKw.band,
        kwargs.lookup AlertKw.freq, kwargs.lookup AlertKw.front_str,
        kwargs.lookup AlertKw.rear_str with
  | some (.pyBool ia), some (.pyStr b), some (.pyRat f),
    some (.pyNat fs), some (.pyNat rs) =>
    .ok (update_v1_alert_data v ia b f fs rs)
  | _, _, _, _, _ => .typeError

/-- The disconnect cleanup of `V1Controller.run_async`'s `finally` block:
`await self.v1_client.disconnect()` followed by
`self.state.set_v1_connection_status(False)` — one positional argument. -/
def runAsyncCleanup (st : ClientState) (v : V1Data) :
    ClientState × PyResult V1Data :=
  (v1Disconnect st, callSetV1ConnectionStatus v [PyArg.pyBool false])

/-- `V1Controller._get_band_from_freq(freq_mhz)`. -/
def getBandFromFreq (freqMhz : Nat) : String :=
  if 10500 ≤ freqMhz ∧ freqMhz ≤ 10550 then "X"
  else if 24050 ≤ freqMhz ∧ freqMhz ≤ 24250 then "K"
  else if 33400 ≤ freqMhz ∧ freqMhz ≤ 36000 then "Ka"
  else if freqMhz = 0 then "Laser"
  else "Unknown"

/-- `V1Controller._handle_alerts(alerts)`: selects
`next((a for a in alerts if a.is_priority), None)` and publishes through
`state.update_v1_alert_data`, passing only the keyword arguments
`in_alert`, `band` and `freq` as the source does. -/
def handleAlerts (v : V1Data) (alerts : List AlertData) : PyResult V1Data :=
  match alerts.find? (fun a => a.isPriority) with
  | some pa =>
    callUpdateV1AlertData v
      [(AlertKw.in_alert, PyArg.pyBool true),
       (AlertKw.band, PyArg.pyStr (getBandFromFreq pa.frequency)),
       (AlertKw.freq, PyArg.pyRat ((pa.frequency : ℚ) / 1000))]
  | none =>
    callUpdateV1AlertData v
      [(AlertKw.in_alert, PyArg.pyBool false),
       (AlertKw.band, PyArg.pyStr ("N/A")),
       (AlertKw.freq, PyArg.pyRat 0)]

/-- Whether a handler call ended with a fully processed packet. -/
def HandlerOutcome.isProcessed : HandlerOutcome → Bool
  | .processed _ _ => true
  | _ => false

/-- A well-formed checksum-bearing frame from the checksum-capable detector:
`INFV1BUSY` from origin `0xEA`, declared length 1 (the checksum byte),
stored checksum `0xD1 = (0xAA+0xD6+0xEA+0x66+0x01) mod 256`. -/
def validV1Frame : List Nat := [0xAA, 0xD6, 0xEA, 0x66, 0x01, 0xD1, 0xAB]

/-- A well-formed checksum-valid frame whose origin nibble is
`GENERAL_BROADCAST (0x08)`, with declared payload length 2 and payload
bytes `0x00, 0xD0` (the second doubling as the matching checksum). -/
def broadcastFrame : List Nat := [0xAA, 0xD6, 0xE8, 0x66, 0x02, 0x00, 0xD0, 0xAB]

/-- The packet the engine actually builds from `broadcastFrame` once the
tracked detector type is the checksum variant: the declared length 2 is
shortened to 1 although the origin is `GENERAL_BROADCAST`. -/
def broadcastPkt : ESPPacket :=
  { rawData := broadcastFrame, v1Type := .valentineOne,
    destination := .v1connection, origin := .generalBroadcast,
    packetId := .infV1Busy, payloadLenUsed := 1, payload := [0x00] }

/-- One alert row declaring itself a complete one-row generation. -/
def alertRow : AlertData :=
  { index := 0, count := 1, frequency := 24100, frontStrength := 5,
    rearStrength := 0, isPriority := true }

/-- A client state whose flow gate is closed by a previously observed
holdoff, while a BLE client is connected. -/
def closedGateState : ClientState :=
  { initClientState with canSend := false, connected := true }

/-- The declared payload-length byte of a frame, `raw_data[4]`. -/
def declaredLen (data : List Nat) : Nat := data.getD 4 0

/-- The concrete packet the engine builds from `validV1Frame`. -/
def busyPkt : ESPPacket :=
  { rawData := validV1Frame, v1Type := .valentineOne,
    destination := .v1connection, origin := .valentineOne,
    packetId := .infV1Busy, payloadLenUsed := 0, payload := [] }

/-- A two-row generation used as the concrete witness input. -/
def rowGen : Nat → AlertData := fun i =>
  { index := i, count := 2, frequency := 24100 + i, frontStrength := 0,
    rearStrength := 0, isPriority := false }

/-- Claim C6: processing an `AlertData` row with `count = 0` clears the
reassembly buffer — whatever it held — and publishes an empty AlertTable. -/
theorem zero_count_clears_and_publishes_empty
    (buf : List (Nat × AlertData)) (a : AlertData) (h : a.count = 0) :
    processAlert buf a = ([], some []) := by
  simp [processAlert, h]

/-- Witness for C6 at a non-empty in-progress buffer and a concrete
count-0 row. -/
theorem zero_count_clears_and_publishes_empty_witness :
    processAlert [(0, ⟨0, 2, 100, 7, 3, false⟩)] ⟨0, 0, 0, 0, 0, false⟩ =
      ([], some []) :=
  zero_count_clears_and_publishes_empty _ _ rfl

/-- Claim C2 (code bug): for a frame of length at least 6 whose packet-id
byte is not a `PacketId` member, `packet_factory` returns `None` — not a
generic frame — because the unknown-id branch constructs `ESPPacket`, whose
`__init__` raises `ValueError` on `PacketId(raw_data[3])`, and the factory's
`except` clause swallows it. -/
theorem unknown_packet_id_yields_none (raw : List Nat) (t : DeviceId)
    (hlen : 6 ≤ raw.length)
    (hunk : PacketId.ofNat? (raw.getD 3 0) = none) :
    packet_factory raw t = none := by
  rcases raw with _ | ⟨b0, _ | ⟨b1, _ | ⟨b2, _ | ⟨b3, _ | ⟨b4, rest⟩⟩⟩⟩⟩ <;>
    simp only [List.length] at hlen <;> try omega
  have hb3 : PacketId.ofNat? b3 = none := hunk
  simp only [packet_factory, espPacketInit, List.get?, hb3,
    Option.bind_eq_bind, Option.some_bind]
  cases DeviceId.ofNat? (b1 % 16) <;> simp [hb3]

/-- Witness for C2: a well-framed 6-byte frame with unknown packet id
`0x50` decodes to `None`. -/
theorem unknown_packet_id_yields_none_witness :
    packet_factory [0xAA, 0xD6, 0xEA, 0x50, 0x00, 0xAB]
      DeviceId.valentineOneNoChecksum = none :=
  unknown_packet_id_yields_none _ _ (by decide) (by decide)

/-- Claim C10: a well-framed notification whose origin nibble is the
engine's own device id `V1CONNECTION (0x06)` is dropped before the checksum
check, classification, alert reassembly and response correlation: the
client state is unchanged and no event is routed to any component. -/
theorem self_origin_frames_discarded (st : ClientState) (data : List Nat)
    (hwf : wellFramed data = true) (h2 : 2 < data.length)
    (horig : data.getD 2 0 % 16 = 0x06) :
    notificationHandler st data = ⟨st, [], .droppedOrigin⟩ := by
  rcases data with _ | ⟨b0, _ | ⟨b1, _ | ⟨b2, rest⟩⟩⟩ <;>
    simp only [List.length] at h2 <;> try omega
  have hb2 : b2 % 16 = 6 := horig
  simp [notificationHandler, hwf, List.get?, hb2, DeviceId.ofNat?]

/-- Witness for C10: a `RESPVERSION` frame bearing the engine's own origin
id arrives while a response to `RESPVERSION` is pending; the frame is
dropped, the pending entry untouched. -/
theorem self_origin_frames_discarded_witness :
    notificationHandler
      { initClientState with pending := [PacketId.respVersion] }
      [0xAA, 0xD6, 0xE6, 0x02, 0x00, 0xAB] =
      ⟨{ initClientState with pending := [PacketId.respVersion] },
       [], .droppedOrigin⟩ :=
  self_origin_frames_discarded _ _ (by decide) (by decide) (by decide)

/-- Claim C8 counterexample: with the flow gate closed by a stale holdoff,
running the disconnect cleanup of `run_async` leaves the gate closed — it is
not reset to open, contrary to the claim. -/
theorem flow_gate_survives_disconnect_cex :
    ((runAsyncCleanup closedGateState initV1Data).1).canSend = false := by
  decide

/-- Claim C8 (amended): the disconnect cleanup never touches the FlowGate —
`can_send_event` keeps its previous value across every disconnect, and is
open only because the client constructor sets it (and display frames without
the holdoff bit re-set it); hence a reconnect can start with the gate still
closed from a stale holdoff of the previous session. -/
theorem disconnect_preserves_flow_gate :
    (∀ st v, ((runAsyncCleanup st v).1).canSend = st.canSend ∧
             ((runAsyncCleanup st v).1).connected = false) ∧
    initClientState.canSend = true := by
  exact ⟨fun st v => ⟨rfl, rfl⟩, rfl⟩

/-- Claim C7 (code bug): the reset logic of
`AppState.set_v1_connection_status` does set every detector-derived field to
its no-data default whenever a not-connected state is stored; but the
engine's actual calls `set_v1_connection_status(True/False)` pass one
positional argument to a two-parameter method, so the disconnect publish
raises `TypeError` and no reset ever happens at runtime. -/
theorem disconnect_reset_fields_and_arity_bug :
    (∀ v status,
      (set_v1_connection_status v false status).isConnected = false ∧
      (set_v1_connection_status v false status).connectionStatus = status ∧
      (set_v1_connection_status v false status).inAlert = false ∧
      (set_v1_connection_status v false status).v1Mode = "Standby" ∧
      (set_v1_connection_status v false status).priorityAlertBand = "N/A" ∧
      (set_v1_connection_status v false status).priorityAlertFreq = 0 ∧
      (set_v1_connection_status v false status).priorityAlertDirection = "N/A" ∧
      (set_v1_connection_status v false status).priorityAlertStrength = 0 ∧
      (set_v1_connection_status v false status).priorityAlertFrontStrength = 0 ∧
      (set_v1_connection_status v false status).priorityAlertRearStrength = 0) ∧
    (∀ st v, (runAsyncCleanup st v).2 = PyResult.typeError) := by
  constructor
  · intro v status
    simp [set_v1_connection_status]
  · intro st v
    rfl

/-- Claim C9 (code bug): `_handle_alerts` selects the `is_priority` row
(`next`, never defaulting to the first row) and the no-priority branch
passes `in_alert=False`; but both branches call `update_v1_alert_data` with
only three of its five required keyword arguments, so every call raises
`TypeError` and the published state is never updated. Called with all five
arguments, the method would set the in-alert flag, band and frequency as the
claim states. -/
theorem handle_alerts_arity_bug :
    (∀ v alerts, handleAlerts v alerts = PyResult.typeError) ∧
    (∀ v band freq frontStr rearStr,
      (update_v1_alert_data v true band freq frontStr rearStr).inAlert = true ∧
      (update_v1_alert_data v true band freq frontStr rearStr).priorityAlertBand
        = band ∧
      (update_v1_alert_data v true band freq frontStr rearStr).priorityAlertFreq
        = freq) := by
  constructor
  · intro v alerts
    unfold handleAlerts
    cases alerts.find? (fun a => a.isPriority) <;> rfl
  · intro v band freq frontStr rearStr
    simp [update_v1_alert_data]

/-- Claim C3 counterexample: `validV1Frame` is a checksum-valid frame from
the checksum-capable origin; corrupting its origin byte (position 2, neither
SOF nor EOF) from `0xEA` to `0xE9` makes the handler treat it as a
no-checksum detector frame — it is processed without any checksum check,
not dropped with a checksum mismatch. -/
theorem corrupt_origin_byte_skips_checksum_cex :
    storedChecksum validV1Frame = computedChecksum validV1Frame ∧
    validV1Frame.getD 2 0 % 16 = 0x0A ∧
    validV1Frame.set 2 0xE9 = [0xAA, 0xD6, 0xE9, 0x66, 0x01, 0xD1, 0xAB] ∧
    (notificationHandler initClientState
      (validV1Frame.set 2 0xE9)).outcome.isProcessed = true ∧
    (notificationHandler initClientState (validV1Frame.set 2 0xE9)).outcome ≠
      HandlerOutcome.droppedChecksum := by
  decide

/-- Claim C4 counterexample: after one genuine detector frame sets the
tracked type to the checksum variant, a frame whose origin nibble is
`GENERAL_BROADCAST (0x08)` still has its declared payload length 2 reduced
to 1 — the subtraction follows the sticky tracked type, not the frame's
origin. -/
theorem broadcast_frame_payload_shortened_cex :
    (notificationHandler
        (notificationHandler initClientState validV1Frame).state
        broadcastFrame).outcome
      = HandlerOutcome.processed PacketView.base broadcastPkt ∧
    broadcastPkt.origin = DeviceId.generalBroadcast ∧
    broadcastFrame.getD 4 0 = 2 ∧
    broadcastPkt.payloadLenUsed = 1 ∧
    broadcastPkt.payload = [0x00] := by
  decide

/-- Claim C5 counterexample: with `N = 1` and the single row `alertRow`
(index 0, count 1), the feed `[alertRow, alertRow]` — the complete
generation with the row re-sent once — publishes two AlertTables, not
exactly one. -/
theorem resent_row_republishes_cex :
    (runAlerts [] [alertRow, alertRow]).2 = [[alertRow], [alertRow]] ∧
    ((runAlerts [] [alertRow, alertRow]).2).length ≠ 1 := by
  decide

/-- The destination byte `DEST_BASE | dest` always decodes back through
`DeviceId` of its low nibble. -/
theorem destNibble_decodes (dest : DeviceId) :
    (DeviceId.ofNat? (Nat.lor DEST_BASE dest.val % 16)).isSome = true := by
  cases dest <;> decide

/-- `PacketId` round-trips through its integer value. -/
theorem packetId_ofNat_val (pid : PacketId) :
    PacketId.ofNat? pid.val = some pid := by
  cases pid <;> decide

/-- Every `PacketId` other than the internal `UNKNOWNPACKETTYPE` fits in
one byte. -/
theorem packetId_val_le (pid : PacketId)
    (h : pid ≠ PacketId.unknownPacketType) : pid.val ≤ 255 := by
  cases pid <;> revert h <;> decide

/-- Claim C1: the frame codec round-trips. For every destination device id,
byte-sized packet id and byte payload the encoder can frame (at most 254
payload bytes with a checksum, 255 without), decoding the frame
`_send_request` builds — parsed with the matching detector type — recovers
the packet id and the payload unchanged, with and without checksum. -/
theorem frame_codec_roundtrip (pid : PacketId) (dest : DeviceId)
    (payload : List Nat) (useChecksum : Bool)
    (hpid : pid ≠ PacketId.unknownPacketType)
    (hlen : payload.length + (if useChecksum then 1 else 0) ≤ 255)
    (hbytes : payload.all (· ≤ 255) = true) :
    ∃ frame pkt,
      sendRequestFrame? pid dest payload useChecksum = some frame ∧
      espPacketInit frame
        (if useChecksum then DeviceId.valentineOne
         else DeviceId.valentineOneNoChecksum) = some pkt ∧
      pkt.packetId = pid ∧ pkt.payload = payload := by
  obtain ⟨dd, hdd⟩ := Option.isSome_iff_exists.mp (destNibble_decodes dest)
  have hpv := packetId_ofNat_val pid
  have hp255 := packetId_val_le pid hpid
  have horig : DeviceId.ofNat? (Nat.lor ORIG_BASE (DeviceId.val .v1connection) % 16)
      = some DeviceId.v1connection := by decide
  cases useChecksum with
  | false =>
    have hl : payload.length ≤ 255 := by simpa using hlen
    refine ⟨([ESP_SOF, Nat.lor DEST_BASE dest.val,
        Nat.lor ORIG_BASE (DeviceId.val .v1connection), pid.val,
        payload.length] ++ payload) ++ [ESP_EOF],
      { rawData := ([ESP_SOF, Nat.lor DEST_BASE dest.val,
          Nat.lor ORIG_BASE (DeviceId.val .v1connection), pid.val,
          payload.length] ++ payload) ++ [ESP_EOF]
        v1Type := DeviceId.valentineOneNoChecksum
        destination := dd
        origin := DeviceId.v1connection
        packetId := pid
        payloadLenUsed := payload.length
        payload := payload }, ?_, ?_, rfl, rfl⟩
    · simp [sendRequestFrame?, hl, hp255, hbytes]
    · simp only [espPacketInit, List.cons_append, List.nil_append, List.get?,
        Option.bind_eq_bind, Option.some_bind, hdd, horig, hpv]
      simp [List.append_assoc, List.take_left' rfl]
  | true =>
    have hl : payload.length + 1 ≤ 255 := by simpa using hlen
    refine ⟨(([ESP_SOF, Nat.lor DEST_BASE dest.val,
        Nat.lor ORIG_BASE (DeviceId.val .v1connection), pid.val,
        payload.length + 1] ++ payload)
          ++ [([ESP_SOF, Nat.lor DEST_BASE dest.val,
               Nat.lor ORIG_BASE (DeviceId.val .v1connection), pid.val,
               payload.length + 1] ++ payload).sum % 256]) ++ [ESP_EOF],
      { rawData := (([ESP_SOF, Nat.lor DEST_BASE dest.val,
          Nat.lor ORIG_BASE (DeviceId.val .v1connection), pid.val,
          payload.length + 1] ++ payload)
            ++ [([ESP_SOF, Nat.lor DEST_BASE dest.val,
                 Nat.lor ORIG_BASE (DeviceId.val .v1connection), pid.val,
                 payload.length + 1] ++ payload).sum % 256]) ++ [ESP_EOF]
        v1Type := DeviceId.valentineOne
        destination := dd
        origin := DeviceId.v1connection
        packetId := pid
        payloadLenUsed := payload.length
        payload := payload }, ?_, ?_, rfl, rfl⟩
    · simp [sendRequestFrame?, hl, hp255, hbytes]
    · simp only [espPacketInit, List.cons_append, List.nil_append, List.get?,
        Option.bind_eq_bind, Option.some_bind, hdd, horig, hpv]
      simp [List.append_assoc, List.take_left' rfl]

/-- Witness for C1 at `REQVERSION`, destination `VALENTINE_ONE`, payload
`[1, 2, 3]`, with checksum. -/
theorem frame_codec_roundtrip_witness :
    ∃ frame pkt,
      sendRequestFrame? PacketId.reqVersion DeviceId.valentineOne
        [1, 2, 3] true = some frame ∧
      espPacketInit frame
        (if true then DeviceId.valentineOne
         else DeviceId.valentineOneNoChecksum) = some pkt ∧
      pkt.packetId = PacketId.reqVersion ∧ pkt.payload = [1, 2, 3] :=
  frame_codec_roundtrip PacketId.reqVersion DeviceId.valentineOne
    [1, 2, 3] true (by decide) (by decide) (by decide)

/-- Whatever view `packet_factory` picks, the packet itself is the one
`ESPPacket.__init__` built. -/
theorem packet_factory_packet (raw : List Nat) (t : DeviceId)
    (vp : PacketView × ESPPacket) (h : packet_factory raw t = some vp) :
    espPacketInit raw t = some vp.2 := by
  unfold packet_factory at h
  split at h
  · simp at h
  split at h
  · obtain ⟨p, hp, hvp⟩ := Option.map_eq_some'.mp h
    rw [hp, ← hvp]
  · obtain ⟨p, hp, hvp⟩ := Option.map_eq_some'.mp h
    rw [hp, ← hvp]

/-- The payload length `ESPPacket.__init__` uses is the declared length,
diminished by one when positive and the constructor's `v1_type` is the
checksum-capable variant. -/
theorem espPacketInit_payloadLenUsed (raw : List Nat) (t : DeviceId)
    (pkt : ESPPacket) (h : espPacketInit raw t = some pkt) :
    pkt.payloadLenUsed =
      (if t = DeviceId.valentineOne ∧ 0 < raw.getD 4 0
       then raw.getD 4 0 - 1 else raw.getD 4 0) := by
  simp only [espPacketInit, Option.bind_eq_bind, Option.bind_eq_some,
    Option.some.injEq] at h
  obtain ⟨b1, h1, b2, h2, b3, h3, b4, h4, d, hd, o, ho, pi, hpi, hmk⟩ := h
  rw [← hmk]
  simp [List.getD, ← List.get?_eq_getElem?, h4]

/-- Whatever branch `dispatchPacket` takes, a processed outcome carries the
packet it was given. -/
theorem dispatchPacket_processed (st : ClientState) (view' : PacketView)
    (pkt' : ESPPacket) (view : PacketView) (pkt : ESPPacket)
    (h : (dispatchPacket st view' pkt').outcome =
      HandlerOutcome.processed view pkt) :
    pkt' = pkt := by
  unfold dispatchPacket at h
  split at h <;> try split at h
  all_goals try split at h
  all_goals simp at h
  all_goals try exact h.2

/-- Claim C4 (amended): for every processed inbound frame, the payload
length actually used for slicing is the declared length diminished by one
exactly when the length is positive and the detector type tracked after
the origin update — `newV1Type`, the frame's origin when that origin is a
detector variant, the previous sticky value otherwise — is the
checksum-capable variant. In particular frames from the checksum-capable
origin are always shortened, but a frame from a non-detector origin is also
shortened whenever the most recently seen detector variant was the
checksum-capable one; the origin of the frame itself does not decide. -/
theorem payload_length_follows_tracked_type (st : ClientState)
    (data : List Nat) (view : PacketView) (pkt : ESPPacket)
    (h : (notificationHandler st data).outcome =
      HandlerOutcome.processed view pkt) :
    pkt.payloadLenUsed =
      (if newV1Type st data = DeviceId.valentineOne ∧ 0 < declaredLen data
       then declaredLen data - 1 else declaredLen data) := by
  unfold notificationHandler at h
  split at h
  · simp at h
  split at h
  · simp at h
  rename_i b2 hb2
  split at h
  · simp at h
  rename_i originId hoid
  split at h
  · simp at h
  rename_i hnotself
  have hnew : newV1Type st data =
      (if originId = DeviceId.valentineOne ∨
          originId = DeviceId.valentineOneNoChecksum
        then { st with v1Type := originId } else st).v1Type := by
    simp only [newV1Type, List.getD, ← List.get?_eq_getElem?, hb2,
      Option.getD_some, hoid]
    by_cases hdet : originId = DeviceId.valentineOne ∨
        originId = DeviceId.valentineOneNoChecksum <;> simp [hdet]
  split at h <;> rename_i hdet
  · dsimp only at h
    split at h
    · simp at h
    rename_i hchk
    split at h
    · simp at h
    rename_i vp hfac
    have hes := packet_factory_packet _ _ _ hfac
    have hpl := espPacketInit_payloadLenUsed _ _ _ hes
    obtain ⟨view', pkt'⟩ := vp
    have hpp := dispatchPacket_processed _ _ _ _ _ h
    rw [← hpp, hpl, hnew, if_pos hdet]
    rfl
  · dsimp only at h
    split at h
    · simp at h
    rename_i hchk
    split at h
    · simp at h
    rename_i vp hfac
    have hes := packet_factory_packet _ _ _ hfac
    have hpl := espPacketInit_payloadLenUsed _ _ _ hes
    obtain ⟨view', pkt'⟩ := vp
    have hpp := dispatchPacket_processed _ _ _ _ _ h
    rw [← hpp, hpl, hnew, if_neg hdet]
    rfl

/-- Witness for the amended C4 at the concrete frame `validV1Frame`. -/
theorem payload_length_follows_tracked_type_witness :
    busyPkt.payloadLenUsed =
      (if newV1Type initClientState validV1Frame = DeviceId.valentineOne ∧
          0 < declaredLen validV1Frame
       then declaredLen validV1Frame - 1 else declaredLen validV1Frame) :=
  payload_length_follows_tracked_type initClientState validV1Frame
    PacketView.base busyPkt (by decide)

/-- An in-bounds index read through `get?` yields the `getD` value. -/
theorem get?_eq_some_getD (l : List Nat) (n : Nat) (h : n < l.length) :
    l.get? n = some (l.getD n 0) := by
  rw [List.getD_eq_getElem?_getD, List.get?_eq_getElem?]
  cases hx : l[n]? with
  | none => rw [List.getElem?_eq_none_iff] at hx; omega
  | some x => rfl

/-- Replacing one in-bounds element changes a list's sum by the exchanged
amount. -/
theorem sum_set_add (l : List Nat) (p c : Nat) (h : p < l.length) :
    (l.set p c).sum + l.getD p 0 = l.sum + c := by
  induction l generalizing p with
  | nil => simp at h
  | cons x xs ih =>
    cases p with
    | zero => simp [List.getD]; omega
    | succ q =>
      have hq : q < xs.length := by simpa using h
      have := ih q hq
      simp only [List.set, List.sum_cons, List.getD_cons_succ]
      omega

/-- Claim C3 (amended): corrupting any single byte of a valid
checksum-bearing detector frame — other than the SOF byte, the EOF byte and
the origin-id byte at position 2 — makes the notification handler drop the
frame with a checksum mismatch, from any client state, routing it to no
component. (Corrupting the origin byte can instead divert the frame around
the checksum check entirely, which the counterexample exhibits.) -/
theorem corrupted_checksum_frame_dropped (st : ClientState) (data : List Nat)
    (p c : Nat)
    (hwf : wellFramed data = true)
    (hbytes : ∀ b ∈ data, b < 256)
    (h2 : 2 < data.length)
    (horig : data.getD 2 0 % 16 = 0x0A)
    (hvalid : storedChecksum data = computedChecksum data)
    (hp1 : 1 ≤ p) (hp2 : p ≠ 2) (hpu : p ≤ data.length - 2)
    (hc : c < 256) (hne : c ≠ data.getD p 0) :
    notificationHandler st (data.set p c) =
      ⟨{ st with v1Type := DeviceId.valentineOne }, [],
       HandlerOutcome.droppedChecksum⟩ := by
  have hplt : p < data.length := by omega
  have hwf' : wellFramed (data.set p c) = true := by
    unfold wellFramed at hwf ⊢
    rw [List.length_set,
        List.get?_set_ne c data (show p ≠ 0 by omega),
        List.get?_set_ne c data (show p ≠ data.length - 1 by omega)]
    exact hwf
  have hb2' : (data.set p c).get? 2 = some (data.getD 2 0) := by
    rw [List.get?_set_ne c data hp2]
    exact get?_eq_some_getD data 2 h2
  have hofA : DeviceId.ofNat? ((data[2]?).getD 0 % 16)
      = some DeviceId.valentineOne := by
    have hx : (data[2]?).getD 0 % 16 = 0x0A := by
      rw [← List.getD_eq_getElem?_getD]
      exact horig
    rw [hx]
    decide
  have hmis : storedChecksum (data.set p c)
      ≠ computedChecksum (data.set p c) := by
    rcases Nat.lt_or_ge p (data.length - 2) with hplt2 | hpge
    · have hst : storedChecksum (data.set p c) = storedChecksum data := by
        unfold storedChecksum
        rw [List.length_set, List.getD_eq_getElem?_getD,
            List.getElem?_set_ne (show p ≠ data.length - 2 by omega),
            ← List.getD_eq_getElem?_getD]
      have htake : (data.set p c).take ((data.set p c).length - 2)
          = (data.take (data.length - 2)).set p c := by
        rw [List.length_set]
        exact List.set_take
      have hlen_take : p < (data.take (data.length - 2)).length := by
        rw [List.length_take]
        omega
      have hsum := sum_set_add (data.take (data.length - 2)) p c hlen_take
      have hgd : (data.take (data.length - 2)).getD p 0 = data.getD p 0 := by
        rw [List.getD_eq_getElem?_getD, List.getD_eq_getElem?_getD,
            List.getElem?_take_of_lt hplt2]
      rw [hgd] at hsum
      have ha : data.getD p 0 < 256 :=
        hbytes _ (List.get?_mem (get?_eq_some_getD data p hplt))
      rw [hst]
      unfold storedChecksum computedChecksum
      rw [htake]
      unfold storedChecksum computedChecksum at hvalid
      omega
    · have hpe : p = data.length - 2 := by omega
      subst hpe
      have hst : storedChecksum (data.set (data.length - 2) c) = c := by
        unfold storedChecksum
        rw [List.length_set, List.getD_eq_getElem?_getD,
            List.getElem?_set_self (by omega), Option.getD_some]
      have htake : (data.set (data.length - 2) c).take
            ((data.set (data.length - 2) c).length - 2)
          = data.take (data.length - 2) := by
        rw [List.length_set, List.set_take,
            List.set_eq_of_length_le (by rw [List.length_take]; omega)]
      rw [hst]
      unfold computedChecksum
      rw [htake]
      unfold storedChecksum computedChecksum at hvalid
      omega
  unfold notificationHandler
  rw [hwf', hb2']
  simp [hofA, hmis]

/-- Witness for the amended C3: corrupting the declared-length byte
(position 4) of `validV1Frame` to `0x00` is dropped as a checksum
mismatch. -/
theorem corrupted_checksum_frame_dropped_witness :
    notificationHandler initClientState (validV1Frame.set 4 0) =
      ⟨{ initClientState with v1Type := DeviceId.valentineOne }, [],
       HandlerOutcome.droppedChecksum⟩ :=
  corrupted_checksum_frame_dropped initClientState validV1Frame 4 0
    (by decide) (by decide) (by decide) (by decide) (by decide)
    (by decide) (by decide) (by decide) (by decide) (by decide)

/-- The buffer holding the rows of a generation, keyed by their indices. -/
theorem any_dict_iff (row : Nat → AlertData) (seen : List Nat) (k : Nat) :
    ((seen.map (fun i => (i, row i))).any (fun p => p.1 == k) = true)
      ↔ k ∈ seen := by
  constructor
  · intro h
    obtain ⟨p, hp, hpk⟩ := List.any_eq_true.mp h
    obtain ⟨i, hi, rfl⟩ := List.mem_map.mp hp
    have hik : i = k := by simpa using hpk
    exact hik ▸ hi
  · intro hk
    exact List.any_eq_true.mpr
      ⟨(k, row k), List.mem_map.mpr ⟨k, hk, rfl⟩, by simp⟩

/-- Inserting a generation row into a generation buffer keeps it a
generation buffer: an already present index changes nothing, a new index is
appended. -/
theorem insertDict_dict (row : Nat → AlertData) (seen : List Nat) (a : Nat) :
    insertDict (seen.map (fun i => (i, row i))) a (row a) =
      (if a ∈ seen then seen else seen ++ [a]).map (fun i => (i, row i)) := by
  by_cases hmem : a ∈ seen
  · rw [insertDict, if_pos ((any_dict_iff row seen a).mpr hmem), if_pos hmem,
        List.map_map]
    apply List.map_congr_left
    intro i _
    by_cases hia : i = a
    · subst hia; simp
    · simp [Function.comp, hia]
  · rw [insertDict, if_neg (fun h => hmem ((any_dict_iff row seen a).mp h)),
        if_neg hmem, List.map_append]
    rfl

/-- Looking a present index up in a generation buffer yields its row. -/
theorem lookupDict_dict (row : Nat → AlertData) (seen : List Nat) (i : Nat)
    (h : i ∈ seen) :
    lookupDict (seen.map (fun j => (j, row j))) i = some (row i) := by
  induction seen with
  | nil => simp at h
  | cons j tl ih =>
    by_cases hj : j = i
    · subst hj
      rw [List.map_cons, lookupDict, List.find?_cons_of_pos _ (by simp)]
      rfl
    · have hi : i ∈ tl := by
        rcases List.mem_cons.mp h with h1 | h2
        · exact absurd h1.symm hj
        · exact h2
      rw [List.map_cons, lookupDict, List.find?_cons_of_neg _ (by simp [hj])]
      exact ih hi

/-- A pointwise successful lookup turns `filterMap` into `map`. -/
theorem filterMap_lookup_eq_map (row : Nat → AlertData)
    (d : List (Nat × AlertData)) (l : List Nat)
    (h : ∀ i ∈ l, lookupDict d i = some (row i)) :
    l.filterMap (lookupDict d) = l.map row := by
  induction l with
  | nil => rfl
  | cons x xs ih =>
    simp only [List.filterMap_cons, List.map_cons,
      h x (List.mem_cons_self x xs)]
    rw [ih (fun i hi => h i (List.mem_cons_of_mem _ hi))]

/-- A duplicate-free list of naturals below `N` that contains them all is a
permutation of `range N`. -/
theorem perm_range_of_cover (seen : List Nat) (N : Nat) (hnd : seen.Nodup)
    (hlt : ∀ i ∈ seen, i < N) (hcov : ∀ i, i < N → i ∈ seen) :
    seen.Perm (List.range N) := by
  rw [List.perm_ext_iff_of_nodup hnd (List.nodup_range N)]
  intro i
  rw [List.mem_range]
  exact ⟨hlt i, hcov i⟩

/-- Sorting a permutation of `range N` ascending gives `range N` itself. -/
theorem insertionSort_eq_range (seen : List Nat) (N : Nat)
    (h : seen.Perm (List.range N)) :
    List.insertionSort (· ≤ ·) seen = List.range N :=
  List.eq_of_perm_of_sorted ((List.perm_insertionSort _ _).trans h)
    (List.sorted_insertionSort _ _) (List.sorted_le_range N)

/-- A duplicate-free list of naturals below `N` missing one of them is
shorter than `N`. -/
theorem length_lt_of_missing (seen : List Nat) (N i : Nat) (hnd : seen.Nodup)
    (hlt : ∀ j ∈ seen, j < N) (hi : i < N) (hni : i ∉ seen) :
    seen.length < N := by
  have hsub : seen.toFinset ⊆ Finset.range N := fun x hx =>
    Finset.mem_range.mpr (hlt x (List.mem_toFinset.mp hx))
  have hne : seen.toFinset ≠ Finset.range N := fun he =>
    hni (List.mem_toFinset.mp (he ▸ Finset.mem_range.mpr hi))
  have := Finset.card_lt_card (lt_of_le_of_ne hsub hne)
  rw [List.toFinset_card_of_nodup hnd] at this
  simpa using this

/-- The stale-generation check never fires inside one generation: every
buffered row and the incoming row declare the same count `N`. -/
theorem bufAfterCountCheck_dict (N : Nat) (row : Nat → AlertData)
    (hcnt : ∀ i, i < N → (row i).count = N) (seen : List Nat) (a : Nat)
    (hseenlt : ∀ i ∈ seen, i < N) (haN : a < N) :
    bufAfterCountCheck (seen.map (fun i => (i, row i))) (row a) =
      seen.map (fun i => (i, row i)) := by
  cases seen with
  | nil => rfl
  | cons j tl =>
    have hj : j < N := hseenlt j (List.mem_cons_self j tl)
    simp [bufAfterCountCheck, hcnt j hj, hcnt a haN]

/-- `runAlerts` on an empty feed. -/
theorem runAlerts_nil (buf : List (Nat × AlertData)) :
    runAlerts buf [] = (buf, []) := rfl

/-- One step of `runAlerts`. -/
theorem runAlerts_cons (buf : List (Nat × AlertData)) (x : AlertData)
    (xs : List AlertData) :
    runAlerts buf (x :: xs) =
      ((runAlerts (processAlert buf x).1 xs).1,
       (processAlert buf x).2.toList ++
         (runAlerts (processAlert buf x).1 xs).2) := rfl

/-- Feeding rows of one `N`-row generation into a generation buffer that
still misses at least one index publishes nothing until coverage completes
with the feed's last row, and then publishes exactly the full table sorted
by index, leaving the buffer empty. -/
theorem runAlerts_complete (N : Nat) (row : Nat → AlertData)
    (hidx : ∀ i, i < N → (row i).index = i)
    (hcnt : ∀ i, i < N → (row i).count = N)
    (s : List Nat) :
    ∀ seen : List Nat,
      seen.Nodup → (∀ i ∈ seen, i < N) → (∀ i ∈ s, i < N) →
      (∀ i, i < N → i ∈ seen ∨ i ∈ s) →
      (∃ i, i < N ∧ i ∉ seen) →
      (∀ k, k < s.length → ∃ i, i < N ∧ i ∉ seen ∧ i ∉ s.take k) →
      runAlerts (seen.map (fun i => (i, row i))) (s.map row) =
        ([], [(List.range N).map row]) := by
  induction s with
  | nil =>
    intro seen _ _ _ hcov hmiss _
    obtain ⟨i, hiN, hins⟩ := hmiss
    rcases hcov i hiN with h | h
    · exact absurd h hins
    · simp at h
  | cons a rest ih =>
    intro seen hnd hseenlt hslt hcov hmiss hlate
    have haN : a < N := hslt a (List.mem_cons_self a rest)
    have hN : 0 < N := by
      obtain ⟨i, hiN, _⟩ := hmiss
      omega
    set seen2 : List Nat := if a ∈ seen then seen else seen ++ [a] with hseen2
    have hsub : ∀ i ∈ seen, i ∈ seen2 := by
      intro i hi
      rw [hseen2]
      by_cases hm : a ∈ seen <;> simp [hm, hi]
    have hmem_a : a ∈ seen2 := by
      rw [hseen2]
      by_cases hm : a ∈ seen <;> simp [hm]
    have hnot2 : ∀ i, i ∉ seen → i ≠ a → i ∉ seen2 := by
      intro i h1 h2
      rw [hseen2]
      by_cases hm : a ∈ seen <;> simp [hm, h1, h2]
    have hnd2 : seen2.Nodup := by
      rw [hseen2]
      by_cases hm : a ∈ seen <;> simp [List.nodup_append, hm, hnd]
    have hlt2 : ∀ i ∈ seen2, i < N := by
      intro i hi
      rw [hseen2] at hi
      by_cases hm : a ∈ seen
      · rw [if_pos hm] at hi
        exact hseenlt i hi
      · rw [if_neg hm] at hi
        rcases List.mem_append.mp hi with h | h
        · exact hseenlt i h
        · simp at h
          subst h
          exact haN
    have hstep : processAlert (seen.map (fun i => (i, row i))) (row a) =
        (if seen2.length = N then
           ([], some ((List.insertionSort (· ≤ ·)
               ((seen2.map (fun i => (i, row i))).map Prod.fst)).filterMap
             (lookupDict (seen2.map (fun i => (i, row i))))))
         else (seen2.map (fun i => (i, row i)), none)) := by
      rw [processAlert, if_neg (by rw [hcnt a haN]; omega),
          bufAfterCountCheck_dict N row hcnt seen a hseenlt haN,
          hidx a haN, insertDict_dict row seen a, hcnt a haN, ← hseen2]
      simp [List.length_map]
    rw [List.map_cons, runAlerts_cons, hstep]
    cases rest with
    | nil =>
      have hcov2 : ∀ i, i < N → i ∈ seen2 := by
        intro i hiN
        rcases hcov i hiN with h | h
        · exact hsub i h
        · simp at h
          subst h
          exact hmem_a
      have hperm := perm_range_of_cover seen2 N hnd2 hlt2 hcov2
      have hlen : seen2.length = N := by
        simpa using hperm.length_eq
      rw [if_pos hlen]
      have hkeys : (seen2.map (fun i => (i, row i))).map Prod.fst = seen2 := by
        rw [List.map_map]
        have hco : (Prod.fst ∘ fun i : Nat => (i, row i)) = id := by
          funext i
          rfl
        rw [hco, List.map_id]
      have hT : (List.insertionSort (· ≤ ·)
            ((seen2.map (fun i => (i, row i))).map Prod.fst)).filterMap
          (lookupDict (seen2.map (fun i => (i, row i)))) =
          (List.range N).map row := by
        rw [hkeys, insertionSort_eq_range seen2 N hperm]
        exact filterMap_lookup_eq_map row _ _
          (fun i hi => lookupDict_dict row seen2 i (hperm.mem_iff.mpr hi))
      rw [hT]
      simp [runAlerts_nil]
    | cons r rest' =>
      obtain ⟨i, hiN, hinseen, hina⟩ := hlate 1 (by simp)
      have hia : i ≠ a := by simpa using hina
      have hmiss2 : i ∉ seen2 := hnot2 i hinseen hia
      have hlenlt := length_lt_of_missing seen2 N i hnd2 hlt2 hiN hmiss2
      rw [if_neg (by omega)]
      have hrec := ih seen2 hnd2 hlt2
        (fun j hj => hslt j (List.mem_cons_of_mem a hj))
        (by
          intro j hjN
          rcases hcov j hjN with h | h
          · exact Or.inl (hsub j h)
          · rcases List.mem_cons.mp h with h1 | h2
            · exact Or.inl (h1 ▸ hmem_a)
            · exact Or.inr h2)
        ⟨i, hiN, hmiss2⟩
        (by
          intro k hk
          obtain ⟨j, hjN, hjseen, hjtake⟩ := hlate (k + 1)
            (by simp only [List.length_cons] at hk ⊢; omega)
          rw [List.take_succ_cons, List.mem_cons] at hjtake
          push_neg at hjtake
          exact ⟨j, hjN, hnot2 j hjseen hjtake.1, hjtake.2⟩)
      rw [hrec]
      simp

/-- Claim C5 (amended): alert reassembly is order-insensitive and never
partial — for every `N ≥ 1` and rows 0..N-1 all declaring count `N`, feeding
any sequence of these rows that covers all `N` indices into an empty
reassembler, with re-sent duplicates allowed only before the table
completes (no proper prefix of the feed already covers all indices),
publishes exactly one AlertTable, equal to the `N` rows sorted ascending by
index, and publishes nothing before the last distinct row arrives; a row
re-sent after completion instead starts a new generation and publishes the
same complete table a second time (see the counterexample). -/
theorem alert_reassembly_order_insensitive (N : Nat) (row : Nat → AlertData)
    (s : List Nat)
    (hidx : ∀ i, i < N → (row i).index = i)
    (hcnt : ∀ i, i < N → (row i).count = N)
    (hN : 0 < N)
    (hslt : ∀ i ∈ s, i < N)
    (hcov : ∀ i, i < N → i ∈ s)
    (hlate : ∀ k, k < s.length → ∃ i, i < N ∧ i ∉ s.take k) :
    runAlerts [] (s.map row) = ([], [(List.range N).map row]) := by
  have h := runAlerts_complete N row hidx hcnt s [] List.nodup_nil
    (by simp) hslt (fun i hi => Or.inr (hcov i hi))
    ⟨0, hN, by simp⟩
    (fun k hk => by
      obtain ⟨i, h1, h2⟩ := hlate k hk
      exact ⟨i, h1, by simp, h2⟩)
  simpa using h

/-- Witness for the amended C5: the two-row generation fed out of order as
`[row 1, row 0]` publishes exactly the sorted table `[row 0, row 1]`. -/
theorem alert_reassembly_order_insensitive_witness :
    runAlerts [] ([1, 0].map rowGen) = ([], [(List.range 2).map rowGen]) :=
  alert_reassembly_order_insensitive 2 rowGen [1, 0]
    (by decide) (by decide) (by decide) (by decide) (by decide)
    (fun k hk => by
      have hk2 : k < 2 := by simpa using hk
      rcases k with _ | _ | k
      · exact ⟨0, by decide, by decide⟩
      · exact ⟨0, by decide, by decide⟩
      · omega)
